import Mathlib

/-
Verification development for the azure-openai-finetuning repository.

The repository is an instructional notebook (main.ipynb, mirrored by the
README) that walks through Azure OpenAI fine-tuning: uploading two JSONL
files, creating a fine-tune job, polling its status, listing events and
checkpoints, deploying the fine-tuned model (same-region, cross-region and
cross-tenant), calling the deployed model, and downloading the results CSV.

We embed each code cell shallowly: the remote service is an oracle
(a structure of response functions), each cell is a pure function from the
oracle and the cell's inputs to the remote calls it issues, the lines it
prints, and the variables it binds.  Request payloads are records whose
fields mirror the JSON keys written by the source; optional JSON keys
become Option fields.
-/

namespace AzureFinetuning

/-- Response object of the data-plane file upload / file retrieve calls,
restricted to the fields the notebook reads. -/
structure FileResponse where
  id : String
  filename : String
deriving Repr, DecidableEq

/-- Response object of the data-plane fine-tuning job create / retrieve
calls, restricted to the fields the notebook reads.  The dump field stands
for the opaque string returned by response.model_dump_json(indent=2). -/
structure JobResponse where
  id : String
  status : String
  fine_tuned_model : Option String
  result_files : List String
  dump : String
deriving Repr, DecidableEq

/-- Hyperparameters accepted by the job-create interface.  The source only
ever passes integer literals; learning_rate_multiplier is a number in the
interface and is never passed by the source. -/
structure Hyperparameters where
  batch_size : Option Int
  learning_rate_multiplier : Option Rat
  n_epochs : Option Int
deriving Repr, DecidableEq

/-- Arguments of client.fine_tuning.jobs.create as the notebook passes
them.  training_file and model are required by the SDK signature; the
remaining keyword arguments are optional and become Option fields. -/
structure JobCreateArgs where
  training_file : String
  validation_file : Option String
  model : String
  seed : Option Int
  hyperparameters : Option Hyperparameters
deriving Repr, DecidableEq

/-- Body of the model entry of an ARM deployment PUT, mirroring the keys
of the properties.model JSON object written by the source.  The optional
source and sourceAccount keys become Option fields: the key is present in
the serialized body exactly when the field is some. -/
structure ModelSpec where
  format : String
  name : String
  version : String
  source : Option String
  sourceAccount : Option String
deriving Repr, DecidableEq

/-- Body of the sku entry of an ARM deployment PUT. -/
structure Sku where
  name : String
  capacity : Int
deriving Repr, DecidableEq

/-- Body of an ARM deployment PUT: the keys sku and properties.model. -/
structure DeployBody where
  sku : Sku
  properties_model : ModelSpec
deriving Repr, DecidableEq

/-- An HTTP request issued through the requests library: requests.put with
a URL, optional query parameters, headers and a JSON body. -/
structure HttpRequest where
  method : String
  url : String
  params : List (String × String)
  headers : List (String × String)
  body : DeployBody
deriving Repr, DecidableEq

/-- A remote call issued by a notebook cell, data-plane SDK calls and
control-plane ARM requests alike. -/
inductive RemoteCall where
  | filesCreate (fileName : String) (purpose : String)
  | jobsCreate (args : JobCreateArgs)
  | jobsRetrieve (fine_tuning_job_id : String)
  | jobsListEvents (fine_tuning_job_id : String) (limit : Nat)
  | jobsListCheckpoints (fine_tuning_job_id : String) (limit : Nat)
  | filesRetrieve (file_id : String)
  | filesContent (file_id : String)
  | chatCompletionsCreate (model : String) (messages : List (String × String))
  | armPut (req : HttpRequest)
deriving Repr, DecidableEq

/-- ARM resource ID of a Cognitive Services account, as built by the
f-strings of the cross-region and cross-tenant cells. -/
def armAccountId (subscription resource_group account : String) : String :=
  "/subscriptions/" ++ subscription ++ "/resourceGroups/" ++ resource_group ++
    "/providers/Microsoft.CognitiveServices/accounts/" ++ account

/-- URL of the ARM deployments resource, as built by the request_url
f-strings of the deployment cells. -/
def armDeploymentUrl (subscription resource_group resource_name model_deployment_name : String) :
    String :=
  "https://management.azure.com" ++
    armAccountId subscription resource_group resource_name ++
    "/deployments/" ++ model_deployment_name

/-- Same-region deployment cell.  token, subscription, resource_group and
resource_name come from os.getenv; fine_tuned_model stands for the
placeholder written as the name value in the body, which the user must
fill in by hand (the source there is not even runnable Python). -/
def sameRegionDeployRequest (token subscription resource_group resource_name
    fine_tuned_model : String) : HttpRequest :=
  let model_deployment_name := "gpt-35-turbo-ft"
  { method := "PUT"
    url := armDeploymentUrl subscription resource_group resource_name model_deployment_name
    params := [("api-version", "2023-05-01")]
    headers := [("Authorization", "Bearer " ++ token), ("Content-Type", "application/json")]
    body :=
      { sku := { name := "standard", capacity := 1 }
        properties_model :=
          { format := "OpenAI", name := fine_tuned_model, version := "1"
            source := none, sourceAccount := none } } }

/-- Cross-region deployment cell.  The destination and source coordinates
are literal placeholder strings in the source and are kept verbatim; token
comes from os.getenv and the body's name value is again a non-runnable
placeholder the user must fill in. -/
def crossRegionDeployRequest (token fine_tuned_model_name : String) : HttpRequest :=
  let subscription := "<DESTINATION_SUBSCRIPTION_ID>"
  let resource_group := "<DESTINATION_RESOURCE_GROUP_NAME>"
  let resource_name := "<DESTINATION_AZURE_OPENAI_RESOURCE_NAME>"
  let source_subscription := "<SOURCE_SUBSCRIPTION_ID>"
  let source_resource_group := "<SOURCE_RESOURCE_GROUP>"
  let source_resource := "<SOURCE_RESOURCE>"
  let source := armAccountId source_subscription source_resource_group source_resource
  let model_deployment_name := "gpt-35-turbo-ft"
  { method := "PUT"
    url := armDeploymentUrl subscription resource_group resource_name model_deployment_name
    params := [("api-version", "2023-05-01")]
    headers := [("Authorization", "Bearer " ++ token), ("Content-Type", "application/json")]
    body :=
      { sku := { name := "standard", capacity := 1 }
        properties_model :=
          { format := "OpenAI", name := fine_tuned_model_name, version := "1"
            source := some source, sourceAccount := none } } }

/-- Cross-tenant deployment cell.  Every value in this cell is a literal
string in the source, including both access tokens and the fine-tuned
model ID, so the request is fully determined.  The api-version is carried
in the URL itself and the source tenant's token goes in the
x-ms-authorization-auxiliary header. -/
def crossTenantDeployRequest : HttpRequest :=
  let subscription := "DESTINATION-SUBSCRIPTION-ID"
  let resource_group := "DESTINATION-RESOURCE-GROUP"
  let resource_name := "DESTINATION-AZURE-OPENAI-RESOURCE-NAME"
  let model_deployment_name := "DESTINATION-MODEL-DEPLOYMENT-NAME"
  let fine_tuned_model := "gpt-4o-mini-2024-07-18.ft-f8838e7c6d4a4cbe882a002815758510"
  let source_subscription_id := "SOURCE-SUBSCRIPTION-ID"
  let source_resource_group := "SOURCE-RESOURCE-GROUP"
  let source_account := "SOURCE-AZURE-OPENAI-RESOURCE-NAME"
  let dest_token := "DESTINATION-ACCESS-TOKEN"
  let source_token := "SOURCE-ACCESS-TOKEN"
  { method := "PUT"
    url := armDeploymentUrl subscription resource_group resource_name model_deployment_name ++
      "?api-version=2024-10-01"
    params := []
    headers :=
      [("Authorization", "Bearer " ++ dest_token),
       ("x-ms-authorization-auxiliary", "Bearer " ++ source_token),
       ("Content-Type", "application/json")]
    body :=
      { sku := { name := "standard", capacity := 1 }
        properties_model :=
          { format := "OpenAI", name := fine_tuned_model, version := "1"
            source := none
            sourceAccount :=
              some (armAccountId source_subscription_id source_resource_group source_account) } } }

/-- Oracle for the remote service: the response each data-plane call
returns.  The notebook treats every response as opaque data, so the oracle
is an arbitrary function of the call's arguments. -/
structure Service where
  filesCreateResp : String → String → FileResponse
  jobsCreateResp : JobCreateArgs → JobResponse
  jobsRetrieveResp : String → JobResponse
  jobsListEventsResp : String → Nat → String
  filesRetrieveResp : String → FileResponse
  filesContentResp : String → List Nat
  chatResp : String → String

/-- Local file name of the training set, as assigned in the upload cell. -/
def training_file_name : String := "training_set.jsonl"

/-- Local file name of the validation set, as assigned in the upload cell. -/
def validation_file_name : String := "validation_set.jsonl"

/-- Result of the upload cell: the two file IDs it binds, the lines it
prints (each print is the list of its arguments), and the remote calls it
issues. -/
structure UploadCellResult where
  training_file_id : String
  validation_file_id : String
  printed : List (List String)
  calls : List RemoteCall
deriving Repr, DecidableEq

/-- Upload cell: two client.files.create calls with purpose fine-tune, one
per data file, binding training_file_id and validation_file_id to the
returned IDs. -/
def uploadCell (svc : Service) : UploadCellResult :=
  let training_response := svc.filesCreateResp training_file_name "fine-tune"
  let validation_response := svc.filesCreateResp validation_file_name "fine-tune"
  { training_file_id := training_response.id
    validation_file_id := validation_response.id
    printed := [["Training file ID:", training_response.id],
                ["Validation file ID:", validation_response.id]]
    calls := [.filesCreate training_file_name "fine-tune",
              .filesCreate validation_file_name "fine-tune"] }

/-- Arguments of the first job-create cell: training_file, validation_file,
model from os.getenv, and seed 105; no hyperparameters keyword. -/
def createJobArgs (training_file_id validation_file_id model_name : String) : JobCreateArgs :=
  { training_file := training_file_id
    validation_file := some validation_file_id
    model := model_name
    seed := some 105
    hyperparameters := none }

/-- Arguments of the second job-create cell (the hyperparameters example):
training_file and model only, plus a hyperparameters dict holding a single
key n_epochs with value 2; no validation_file and no seed. -/
def createJobWithHyperparametersArgs (training_file_id model_name : String) : JobCreateArgs :=
  { training_file := training_file_id
    validation_file := none
    model := model_name
    seed := none
    hyperparameters := some
      { batch_size := none, learning_rate_multiplier := none, n_epochs := some 2 } }

/-- Result of the first job-create cell: the arguments it sends, the job_id
it binds, the lines it prints, and the call it issues. -/
structure JobCreateCellResult where
  args : JobCreateArgs
  job_id : String
  printed : List (List String)
  calls : List RemoteCall
deriving Repr, DecidableEq

/-- First job-create cell.  It binds job_id to response.id and prints three
lines; note that the line labeled Status: prints response.id, exactly as
the source does. -/
def jobCreateCell (svc : Service) (training_file_id validation_file_id model_name : String) :
    JobCreateCellResult :=
  let args := createJobArgs training_file_id validation_file_id model_name
  let response := svc.jobsCreateResp args
  { args := args
    job_id := response.id
    printed := [["Job ID:", response.id], ["Status:", response.id], [response.dump]]
    calls := [.jobsCreate args] }

/-- Result of a cell that only issues calls and prints. -/
structure SimpleCellResult where
  printed : List (List String)
  calls : List RemoteCall
deriving Repr, DecidableEq

/-- Job-status cell: one jobs.retrieve call; here the Status: line prints
response.status. -/
def jobStatusCell (svc : Service) (job_id : String) : SimpleCellResult :=
  let response := svc.jobsRetrieveResp job_id
  { printed := [["Job ID:", response.id], ["Status:", response.status], [response.dump]]
    calls := [.jobsRetrieve job_id] }

/-- List-events cell: one jobs.list_events call with limit 10. -/
def listEventsCell (svc : Service) (job_id : String) : SimpleCellResult :=
  { printed := [[svc.jobsListEventsResp job_id 10]]
    calls := [.jobsListEvents job_id 10] }

/-- Checkpoints cell.  The markdown above it says it retrieves the list of
checkpoints of the job, but the code in the cell is identical to the
list-events cell: it calls client.fine_tuning.jobs.list_events. -/
def checkpointsCell (svc : Service) (job_id : String) : SimpleCellResult :=
  { printed := [[svc.jobsListEventsResp job_id 10]]
    calls := [.jobsListEvents job_id 10] }

/-- Whether a remote call is the checkpoints-listing operation of the
data-plane API. -/
def RemoteCall.isCheckpointList : RemoteCall → Bool
  | .jobsListCheckpoints _ _ => true
  | _ => false

/-- Messages sent by the chat-completion cell, verbatim from the source. -/
def chatMessages : List (String × String) :=
  [("system", "You are a helpful assistant."),
   ("user", "Does Azure OpenAI support customer managed keys?"),
   ("assistant", "Yes, customer managed keys are supported by Azure OpenAI."),
   ("user", "Do other Azure AI services support this too?")]

/-- Chat-completion cell: one chat.completions.create call against the
deployment name chosen earlier. -/
def chatCell (svc : Service) : SimpleCellResult :=
  { printed := [[svc.chatResp "gpt-35-turbo-ft"]]
    calls := [.chatCompletionsCreate "gpt-35-turbo-ft" chatMessages] }

/-- Python runtime errors the analysis cell can raise. -/
inductive PyError where
  | nameError (name : String)
  | indexError
deriving Repr, DecidableEq

/-- Successful outcome of the analysis cell: the result file ID it binds,
the local file name it opens, and the bytes it writes there. -/
structure AnalysisOutcome where
  result_file_id : String
  savedFileName : String
  savedBytes : List Nat
deriving Repr, DecidableEq

/-- Analysis cell.  It retrieves the job, and only when the status equals
succeeded binds result_file_id to result_files[0]; it then unconditionally
calls files.retrieve and files.content on result_file_id and writes the
downloaded bytes to a file named by the retrieved filename.  When the
status differs, result_file_id was never bound, so the files.retrieve line
raises NameError before any further remote call; when result_files is
empty, the indexing raises IndexError. -/
def analysisCell (svc : Service) (job_id : String) :
    List RemoteCall × Except PyError AnalysisOutcome :=
  let response := svc.jobsRetrieveResp job_id
  if response.status = "succeeded" then
    match response.result_files with
    | [] => ([.jobsRetrieve job_id], .error .indexError)
    | f :: _ =>
      let retrieve := svc.filesRetrieveResp f
      let result := svc.filesContentResp f
      ([.jobsRetrieve job_id, .filesRetrieve f, .filesContent f],
       .ok { result_file_id := f, savedFileName := retrieve.filename, savedBytes := result })
  else
    ([.jobsRetrieve job_id], .error (.nameError "result_file_id"))

/-- Remainder of a character list after removing the given key when the
key is a leading piece of it. -/
def chopKey : List Char → List Char → Option (List Char)
  | [], s => some s
  | _ :: _, [] => none
  | k :: ks, c :: s => if k = c then chopKey ks s else none

/-- Remainder of a character list after the first occurrence of the given
key inside it, scanning left to right. -/
def findKeyRest (key : List Char) : List Char → Option (List Char)
  | [] => chopKey key []
  | c :: s =>
    match chopKey key (c :: s) with
    | some rest => some rest
    | none => findKeyRest key s

/-- Characters up to the next ampersand, the query-string separator. -/
def takeUntilAmp : List Char → List Char
  | [] => []
  | c :: s => if c = '&' then [] else c :: takeUntilAmp s

/-- Value of a query parameter embedded in a URL string: the text between
the first occurrence of key= and the next ampersand. -/
def queryParamValue (url key : String) : Option String :=
  (findKeyRest (key ++ "=").data url.data).map (fun rest => String.mk (takeUntilAmp rest))

/-- Effective api-version of a request: the params entry when the call
passes query parameters separately, otherwise the value embedded in the
URL string. -/
def HttpRequest.effectiveApiVersion (r : HttpRequest) : Option String :=
  match r.params.lookup "api-version" with
  | some v => some v
  | none => queryParamValue r.url "api-version"

/-- Environment-dependent inputs of the notebook: values read through
os.getenv, plus the two body placeholders the user must fill in by hand in
the same-region and cross-region deployment cells. -/
structure NotebookParams where
  model_name : String
  token : String
  subscription : String
  resource_group : String
  resource_name : String
  fine_tuned_model : String
  cr_token : String
  cr_fine_tuned_model : String

/-- The identifier-threading of the data-plane part of the notebook: the
variables each cell binds and the arguments the following cells pass. -/
structure SdkRun where
  upload : UploadCellResult
  jobCreate : JobCreateCellResult
  second_job_create_args : JobCreateArgs
  retrieve_arg : String
  list_events_arg : String
  checkpoints_arg : String
  analysis : List RemoteCall × Except PyError AnalysisOutcome

/-- Sequential execution of the SDK cells in notebook order: upload, job
create, the hyperparameters job-create example, status retrieve,
list-events, the checkpoints cell, and the analysis cell.  Each cell
consumes the variables bound by the earlier cells exactly as the source
does. -/
def sdkRun (svc : Service) (model_name : String) : SdkRun :=
  let up := uploadCell svc
  let jc := jobCreateCell svc up.training_file_id up.validation_file_id model_name
  { upload := up
    jobCreate := jc
    second_job_create_args := createJobWithHyperparametersArgs up.training_file_id model_name
    retrieve_arg := jc.job_id
    list_events_arg := jc.job_id
    checkpoints_arg := jc.job_id
    analysis := analysisCell svc jc.job_id }

/-- Remote calls of every code cell of the notebook, one trace per cell,
in notebook order. -/
def notebookCellTraces (svc : Service) (p : NotebookParams) : List (List RemoteCall) :=
  let run := sdkRun svc p.model_name
  [run.upload.calls,
   run.jobCreate.calls,
   [.jobsCreate run.second_job_create_args],
   (jobStatusCell svc run.retrieve_arg).calls,
   (listEventsCell svc run.list_events_arg).calls,
   (checkpointsCell svc run.checkpoints_arg).calls,
   [.armPut (sameRegionDeployRequest p.token p.subscription p.resource_group
      p.resource_name p.fine_tuned_model)],
   [.armPut (crossRegionDeployRequest p.cr_token p.cr_fine_tuned_model)],
   [.armPut crossTenantDeployRequest],
   (chatCell svc).calls,
   run.analysis.1]

/-- Concrete service oracle used to instantiate the theorems: a completed
job with one result file. -/
def svcDone : Service :=
  { filesCreateResp := fun fileName _ => { id := "file-" ++ fileName, filename := fileName }
    jobsCreateResp := fun _ =>
      { id := "ftjob-001", status := "pending", fine_tuned_model := none
        result_files := [], dump := "dump-create" }
    jobsRetrieveResp := fun _ =>
      { id := "ftjob-001", status := "succeeded"
        fine_tuned_model := some "gpt-35-turbo-0613.ft-1234567890abcdef"
        result_files := ["file-result-1"], dump := "dump-retrieve" }
    jobsListEventsResp := fun _ _ => "events"
    filesRetrieveResp := fun file_id => { id := file_id, filename := "results.csv" }
    filesContentResp := fun _ => [115, 116, 101, 112]
    chatResp := fun _ => "reply" }

/-- Concrete service oracle whose job retrieval reports a still-running
job. -/
def svcRunning : Service :=
  { svcDone with jobsRetrieveResp := fun _ =>
      { id := "ftjob-001", status := "running", fine_tuned_model := none
        result_files := [], dump := "dump-retrieve" } }

/-- Concrete service oracle whose job retrieval reports success but an
empty result_files list. -/
def svcNoResults : Service :=
  { svcDone with jobsRetrieveResp := fun _ =>
      { id := "ftjob-001", status := "succeeded"
        fine_tuned_model := some "gpt-35-turbo-0613.ft-1234567890abcdef"
        result_files := [], dump := "dump-retrieve" } }

/-- Concrete notebook parameters used to instantiate the theorems. -/
def exampleParams : NotebookParams :=
  { model_name := "gpt-35-turbo-0613"
    token := "token-a"
    subscription := "sub-a"
    resource_group := "rg-a"
    resource_name := "aoai-a"
    fine_tuned_model := "gpt-35-turbo-0613.ft-b044a9d3cf9c4228b5d393567f693b83"
    cr_token := "token-b"
    cr_fine_tuned_model := "gpt-35-turbo-0613.ft-0ab3f80e4f2242929258fff45b56a9ce" }

/-- Whether a job-create call supplies every field of the data-plane
job-create interface named by the spec: validation_file, seed, and a
hyperparameters object carrying batch_size, learning_rate_multiplier and
n_epochs (training_file and model are always present by type). -/
def JobCreateArgs.suppliesAllSpecFields (a : JobCreateArgs) : Bool :=
  a.validation_file.isSome && a.seed.isSome &&
    (match a.hyperparameters with
     | some h =>
       h.batch_size.isSome && h.learning_rate_multiplier.isSome && h.n_epochs.isSome
     | none => false)

/-- Claim C1 (code_bug): the checkpoints cell, documented by its own
markdown as retrieving the list of checkpoints of the job, in fact issues
the list-events call of the data-plane API and never issues the
checkpoints-listing operation. -/
theorem checkpointsCell_calls_list_events (svc : Service) (job_id : String) :
    (checkpointsCell svc job_id).calls = [RemoteCall.jobsListEvents job_id 10] ∧
    ((checkpointsCell svc job_id).calls.any RemoteCall.isCheckpointList) = false :=
  ⟨rfl, rfl⟩

/-- Claim C2, counterexample: the cross-tenant deployment creation is an
HTTP PUT whose effective api-version query parameter is 2024-10-01, not
2023-05-01, so not every deployment creation in the repo uses
api-version 2023-05-01. -/
theorem crossTenant_api_version_counterexample :
    crossTenantDeployRequest.method = "PUT" ∧
    crossTenantDeployRequest.effectiveApiVersion = some "2024-10-01" ∧
    (crossTenantDeployRequest.effectiveApiVersion == some "2023-05-01") = false := by
  refine ⟨rfl, ?_, ?_⟩ <;> decide

/-- Claim C2, amended: every deployment creation is an HTTP PUT to the ARM
deployments URL; the same-region and cross-region requests set the query
parameter api-version to 2023-05-01, while the cross-tenant request embeds
api-version=2024-10-01 in its URL. -/
theorem deploy_requests_put_and_api_versions (p : NotebookParams) :
    (sameRegionDeployRequest p.token p.subscription p.resource_group p.resource_name
        p.fine_tuned_model).method = "PUT" ∧
    (crossRegionDeployRequest p.cr_token p.cr_fine_tuned_model).method = "PUT" ∧
    crossTenantDeployRequest.method = "PUT" ∧
    (sameRegionDeployRequest p.token p.subscription p.resource_group p.resource_name
        p.fine_tuned_model).url =
      armDeploymentUrl p.subscription p.resource_group p.resource_name "gpt-35-turbo-ft" ∧
    (crossRegionDeployRequest p.cr_token p.cr_fine_tuned_model).url =
      armDeploymentUrl "<DESTINATION_SUBSCRIPTION_ID>" "<DESTINATION_RESOURCE_GROUP_NAME>"
        "<DESTINATION_AZURE_OPENAI_RESOURCE_NAME>" "gpt-35-turbo-ft" ∧
    crossTenantDeployRequest.url =
      armDeploymentUrl "DESTINATION-SUBSCRIPTION-ID" "DESTINATION-RESOURCE-GROUP"
        "DESTINATION-AZURE-OPENAI-RESOURCE-NAME" "DESTINATION-MODEL-DEPLOYMENT-NAME" ++
        "?api-version=2024-10-01" ∧
    (sameRegionDeployRequest p.token p.subscription p.resource_group p.resource_name
        p.fine_tuned_model).effectiveApiVersion = some "2023-05-01" ∧
    (crossRegionDeployRequest p.cr_token p.cr_fine_tuned_model).effectiveApiVersion =
      some "2023-05-01" ∧
    crossTenantDeployRequest.effectiveApiVersion = some "2024-10-01" := by
  refine ⟨rfl, rfl, rfl, rfl, rfl, rfl, rfl, rfl, ?_⟩
  decide

/-- Claim C3, counterexample: the model name in the cross-tenant deployment
body is a string literal of the source, so for a service whose job
retrieval reports a different fine_tuned_model the deployed name does not
equal the retrieved value. -/
theorem deployment_name_not_threaded :
    (svcDone.jobsRetrieveResp (sdkRun svcDone "gpt-35-turbo-0613").retrieve_arg).fine_tuned_model =
      some "gpt-35-turbo-0613.ft-1234567890abcdef" ∧
    crossTenantDeployRequest.body.properties_model.name =
      "gpt-4o-mini-2024-07-18.ft-f8838e7c6d4a4cbe882a002815758510" ∧
    (some crossTenantDeployRequest.body.properties_model.name ==
      (svcDone.jobsRetrieveResp
        (sdkRun svcDone "gpt-35-turbo-0613").retrieve_arg).fine_tuned_model) = false := by
  refine ⟨rfl, rfl, ?_⟩
  decide

/-- Claim C3, amended: the training_file and validation_file passed to job
creation are exactly the file IDs returned by the two upload calls, and
the job ID passed to job retrieve and list-events is the ID returned by
job creation; the model name placed in the deployment request body,
however, is not the retrieved fine_tuned_model value: in the same-region
and cross-region cells it equals the manually supplied placeholder, and in
the cross-tenant cell it is a hardcoded example string.  The three
body-name equations hold for every service oracle and every parameter
record simultaneously, and the deployment builders take no service
argument at all, so the deployed name depends only on what the user typed
and is not bound to any retrieval response. -/
theorem sdk_identifier_threading (svc : Service) (p : NotebookParams) :
    (sdkRun svc p.model_name).jobCreate.args.training_file =
      (svc.filesCreateResp training_file_name "fine-tune").id ∧
    (sdkRun svc p.model_name).jobCreate.args.validation_file =
      some (svc.filesCreateResp validation_file_name "fine-tune").id ∧
    (sdkRun svc p.model_name).retrieve_arg =
      (svc.jobsCreateResp (sdkRun svc p.model_name).jobCreate.args).id ∧
    (sdkRun svc p.model_name).list_events_arg =
      (svc.jobsCreateResp (sdkRun svc p.model_name).jobCreate.args).id ∧
    (sameRegionDeployRequest p.token p.subscription p.resource_group p.resource_name
        p.fine_tuned_model).body.properties_model.name = p.fine_tuned_model ∧
    (crossRegionDeployRequest p.cr_token p.cr_fine_tuned_model).body.properties_model.name =
      p.cr_fine_tuned_model ∧
    crossTenantDeployRequest.body.properties_model.name =
      "gpt-4o-mini-2024-07-18.ft-f8838e7c6d4a4cbe882a002815758510" :=
  ⟨rfl, rfl, rfl, rfl, rfl, rfl, rfl⟩

/-- Claim C4: each deployment body has sku standard with capacity 1 and a
model with format OpenAI and version 1; only the cross-region body carries
source, set to the source account's ARM resource ID, and only the
cross-tenant body carries sourceAccount, set to the source account's ARM
resource ID. -/
theorem deploy_bodies (p : NotebookParams) :
    (sameRegionDeployRequest p.token p.subscription p.resource_group p.resource_name
        p.fine_tuned_model).body =
      { sku := { name := "standard", capacity := 1 }
        properties_model :=
          { format := "OpenAI", name := p.fine_tuned_model, version := "1"
            source := none, sourceAccount := none } } ∧
    (crossRegionDeployRequest p.cr_token p.cr_fine_tuned_model).body =
      { sku := { name := "standard", capacity := 1 }
        properties_model :=
          { format := "OpenAI", name := p.cr_fine_tuned_model, version := "1"
            source := some (armAccountId "<SOURCE_SUBSCRIPTION_ID>" "<SOURCE_RESOURCE_GROUP>"
              "<SOURCE_RESOURCE>")
            sourceAccount := none } } ∧
    crossTenantDeployRequest.body =
      { sku := { name := "standard", capacity := 1 }
        properties_model :=
          { format := "OpenAI"
            name := "gpt-4o-mini-2024-07-18.ft-f8838e7c6d4a4cbe882a002815758510"
            version := "1"
            source := none
            sourceAccount := some (armAccountId "SOURCE-SUBSCRIPTION-ID" "SOURCE-RESOURCE-GROUP"
              "SOURCE-AZURE-OPENAI-RESOURCE-NAME") } } :=
  ⟨rfl, rfl, rfl⟩

/-- Claim C5, counterexample: neither job-creation call of the repo
supplies all of validation_file, seed and a hyperparameters object with
batch_size, learning_rate_multiplier and n_epochs, so the claim that every
call supplies all interface fields fails on both calls. -/
theorem job_create_calls_missing_fields :
    JobCreateArgs.suppliesAllSpecFields (createJobArgs "file-1" "file-2" "gpt-35-turbo-0613") =
      false ∧
    JobCreateArgs.suppliesAllSpecFields
      (createJobWithHyperparametersArgs "file-1" "gpt-35-turbo-0613") = false := by
  decide

/-- Claim C5, amended: the two job-creation calls together demonstrate the
interface fields, each supplying a subset: the first passes
validation_file and seed 105 but no hyperparameters, the second passes
neither validation_file nor seed and a hyperparameters object holding only
n_epochs 2. -/
theorem job_create_calls_field_usage (tf vf m tf2 m2 : String) :
    (createJobArgs tf vf m).validation_file = some vf ∧
    (createJobArgs tf vf m).seed = some 105 ∧
    (createJobArgs tf vf m).hyperparameters = none ∧
    (createJobWithHyperparametersArgs tf2 m2).validation_file = none ∧
    (createJobWithHyperparametersArgs tf2 m2).seed = none ∧
    ((createJobWithHyperparametersArgs tf2 m2).hyperparameters.map Hyperparameters.n_epochs) =
      some (some 2) ∧
    ((createJobWithHyperparametersArgs tf2 m2).hyperparameters.map Hyperparameters.batch_size) =
      some none ∧
    ((createJobWithHyperparametersArgs tf2 m2).hyperparameters.map
      Hyperparameters.learning_rate_multiplier) = some none :=
  ⟨rfl, rfl, rfl, rfl, rfl, rfl, rfl, rfl⟩

/-- The remote calls issued by the analysis cell never repeat an
operation, on any of its three control paths. -/
theorem analysisCell_calls_nodup (svc : Service) (job_id : String) :
    (analysisCell svc job_id).1.Nodup := by
  by_cases h : (svc.jobsRetrieveResp job_id).status = "succeeded"
  · rcases hr : (svc.jobsRetrieveResp job_id).result_files with _ | ⟨f, rest⟩
    · simp [analysisCell, h, hr]
    · simp [analysisCell, h, hr]
  · simp [analysisCell, h]

/-- Claim C6: the notebook's eleven code cells each issue a fixed,
sequential list of single-shot remote calls, and within every cell no
call is issued twice, whatever the service responds: there is no retry,
backoff, batching or concurrency in the repo's own code. -/
theorem notebook_single_shot_calls (svc : Service) (p : NotebookParams) :
    (notebookCellTraces svc p).length = 11 ∧
    ∀ t ∈ notebookCellTraces svc p, t.Nodup := by
  refine ⟨rfl, ?_⟩
  intro t ht
  simp only [notebookCellTraces, List.mem_cons, List.not_mem_nil, or_false] at ht
  rcases ht with rfl | rfl | rfl | rfl | rfl | rfl | rfl | rfl | rfl | rfl | rfl
  · show List.Nodup [RemoteCall.filesCreate training_file_name "fine-tune",
      RemoteCall.filesCreate validation_file_name "fine-tune"]
    decide
  · simp [sdkRun, jobCreateCell]
  · simp
  · simp [jobStatusCell]
  · simp [listEventsCell]
  · simp [checkpointsCell]
  · simp
  · simp
  · simp
  · simp [chatCell]
  · exact analysisCell_calls_nodup svc _

/-- Claim C6, witness: the upload cell's trace is a cell trace of the
notebook and is duplicate-free. -/
theorem notebook_single_shot_calls_witness :
    [RemoteCall.filesCreate "training_set.jsonl" "fine-tune",
     RemoteCall.filesCreate "validation_set.jsonl" "fine-tune"] ∈
      notebookCellTraces svcDone exampleParams ∧
    List.Nodup [RemoteCall.filesCreate "training_set.jsonl" "fine-tune",
     RemoteCall.filesCreate "validation_set.jsonl" "fine-tune"] :=
  ⟨by decide, (notebook_single_shot_calls svcDone exampleParams).2 _ (by decide)⟩

/-- Claim C7: when the retrieved job's status is succeeded and its
result_files list is nonempty, the analysis cell binds result_file_id to
the first result file, retrieves that file's metadata, downloads its
content, and writes the downloaded bytes unchanged to a local file named
by the service-reported filename. -/
theorem analysis_downloads_first_result_file (svc : Service) (job_id f : String)
    (rest : List String)
    (hs : (svc.jobsRetrieveResp job_id).status = "succeeded")
    (hr : (svc.jobsRetrieveResp job_id).result_files = f :: rest) :
    analysisCell svc job_id =
      ([.jobsRetrieve job_id, .filesRetrieve f, .filesContent f],
       .ok { result_file_id := f
             savedFileName := (svc.filesRetrieveResp f).filename
             savedBytes := svc.filesContentResp f }) := by
  simp [analysisCell, hs, hr]

/-- Claim C7, witness: for a service reporting a succeeded job with one
result file, the analysis cell downloads that file and saves its bytes
under the reported filename. -/
theorem analysis_downloads_first_result_file_witness :
    (svcDone.jobsRetrieveResp "ftjob-001").status = "succeeded" ∧
    (svcDone.jobsRetrieveResp "ftjob-001").result_files = "file-result-1" :: [] ∧
    analysisCell svcDone "ftjob-001" =
      ([.jobsRetrieve "ftjob-001", .filesRetrieve "file-result-1",
        .filesContent "file-result-1"],
       .ok { result_file_id := "file-result-1", savedFileName := "results.csv",
             savedBytes := [115, 116, 101, 112] }) :=
  ⟨rfl, rfl,
   analysis_downloads_first_result_file svcDone "ftjob-001" "file-result-1" [] rfl rfl⟩

/-- Claim C8: in the job-creation cell the line labeled Status: prints
response.id, so the value printed as the status is the job ID, and
whenever the response's status field differs from its ID the printed line
is not the actual status. -/
theorem job_create_status_line_prints_id (svc : Service)
    (training_file_id validation_file_id model_name : String) :
    (jobCreateCell svc training_file_id validation_file_id model_name).printed =
      [["Job ID:",
        (svc.jobsCreateResp
          (createJobArgs training_file_id validation_file_id model_name)).id],
       ["Status:",
        (svc.jobsCreateResp
          (createJobArgs training_file_id validation_file_id model_name)).id],
       [(svc.jobsCreateResp
          (createJobArgs training_file_id validation_file_id model_name)).dump]] ∧
    ((svc.jobsCreateResp (createJobArgs training_file_id validation_file_id model_name)).status ≠
        (svc.jobsCreateResp (createJobArgs training_file_id validation_file_id model_name)).id →
      (jobCreateCell svc training_file_id validation_file_id model_name).printed.get? 1 ≠
        some ["Status:",
          (svc.jobsCreateResp
            (createJobArgs training_file_id validation_file_id model_name)).status]) := by
  constructor
  · rfl
  · intro h heq
    simp [jobCreateCell] at heq
    exact h heq.symm

/-- Claim C8, witness: for a service whose job-create response has ID
ftjob-001 and status pending, the cell prints Status: ftjob-001 and does
not print the status field. -/
theorem job_create_status_line_prints_id_witness :
    "pending" ≠ "ftjob-001" ∧
    (jobCreateCell svcDone "file-a" "file-b" "gpt-35-turbo-0613").printed.get? 1 ≠
      some ["Status:", "pending"] :=
  ⟨by decide,
   (job_create_status_line_prints_id svcDone "file-a" "file-b" "gpt-35-turbo-0613").2
     (by decide)⟩

/-- Claim C9: when the retrieved job's status is not succeeded the
analysis cell still reaches the files.retrieve line with result_file_id
unbound and fails with a NameError after the single jobs.retrieve call,
and when the status is succeeded but result_files is empty the indexing
result_files[0] fails with an IndexError. -/
theorem analysis_error_paths (svc : Service) (job_id : String) :
    ((svc.jobsRetrieveResp job_id).status ≠ "succeeded" →
      analysisCell svc job_id =
        ([.jobsRetrieve job_id], .error (.nameError "result_file_id"))) ∧
    ((svc.jobsRetrieveResp job_id).status = "succeeded" →
      (svc.jobsRetrieveResp job_id).result_files = [] →
      analysisCell svc job_id = ([.jobsRetrieve job_id], .error .indexError)) := by
  constructor
  · intro h
    simp [analysisCell, h]
  · intro hs hr
    simp [analysisCell, hs, hr]

/-- Claim C9, witness: a still-running job makes the analysis cell fail
with NameError on result_file_id, and a succeeded job with no result files
makes it fail with IndexError. -/
theorem analysis_error_paths_witness :
    "running" ≠ "succeeded" ∧
    analysisCell svcRunning "ftjob-001" =
      ([.jobsRetrieve "ftjob-001"], .error (.nameError "result_file_id")) ∧
    analysisCell svcNoResults "ftjob-001" =
      ([.jobsRetrieve "ftjob-001"], .error .indexError) :=
  ⟨by decide,
   (analysis_error_paths svcRunning "ftjob-001").1 (by decide),
   (analysis_error_paths svcNoResults "ftjob-001").2 rfl rfl⟩

/-- Claim C10: the cross-tenant deployment request sends the
destination-tenant bearer token in the Authorization header and the
distinct source-tenant bearer token in the x-ms-authorization-auxiliary
header, and neither the same-region nor the cross-region deployment
request carries the auxiliary header. -/
theorem crossTenant_dual_tokens (p : NotebookParams) :
    crossTenantDeployRequest.headers.lookup "Authorization" =
      some "Bearer DESTINATION-ACCESS-TOKEN" ∧
    crossTenantDeployRequest.headers.lookup "x-ms-authorization-auxiliary" =
      some "Bearer SOURCE-ACCESS-TOKEN" ∧
    (crossTenantDeployRequest.headers.lookup "Authorization" ==
      crossTenantDeployRequest.headers.lookup "x-ms-authorization-auxiliary") = false ∧
    (sameRegionDeployRequest p.token p.subscription p.resource_group p.resource_name
        p.fine_tuned_model).headers.lookup "x-ms-authorization-auxiliary" = none ∧
    (crossRegionDeployRequest p.cr_token p.cr_fine_tuned_model).headers.lookup
      "x-ms-authorization-auxiliary" = none := by
  refine ⟨?_, ?_, ?_, rfl, rfl⟩ <;> decide

end AzureFinetuning
